import Mathlib

/-!
Shallow embedding of the SmartKnob firmware's component subsystem
(`src/firmware/src`): the broadcast gate of `RootTask`, the
`ComponentManager` registry, and the `ToggleComponent` and
`MultipleChoice` component variants.  Machine floats are modelled as
rationals, C strings as `String`, `millis()` timestamps as naturals with
explicit 32-bit wraparound subtraction, and the `std::map` of components
as an association list.
-/

set_option autoImplicit false

namespace SmartKnob

/-- Modulus of C `uint32_t` arithmetic (`2 ^ 32`). -/
def U32 : ℕ := 4294967296

/-- C `uint32_t` subtraction `a - b` with wraparound, as the firmware uses it
for `millis()` time differences (`current_time - last_broadcast_time_`,
`current_time - last_state_change_time_`). -/
def usub32 (a b : ℕ) : ℕ :=
  (a % U32 + (U32 - b % U32)) % U32

/-- Arduino `abs` macro `((x)>0?(x):-(x))`, used on the float position delta in
`RootTask::shouldBroadcastState`. -/
def cabs (x : ℚ) : ℚ := if 0 < x then x else -x

/-- Fields of `PB_SmartKnobState` (with its nested `config.id`) that the
embedded code reads: `sub_position_unit`, `press_nonce` and `config.id` in the
broadcast gate, `current_position` in the component knob handlers. -/
structure PB_SmartKnobState where
  current_position : ℚ
  sub_position_unit : ℚ
  press_nonce : ℕ
  config_id : String
deriving Repr, DecidableEq

/-- The `RootTask` fields involved in auto-broadcasting
(`auto_broadcast_enabled_`, `position_change_threshold_`,
`max_broadcast_interval_`, `last_broadcast_time_`, `last_broadcast_state_`,
`latest_state_`). -/
structure RootTaskBroadcast where
  auto_broadcast_enabled : Bool
  position_change_threshold : ℚ
  max_broadcast_interval : ℕ
  last_broadcast_time : ℕ
  last_broadcast_state : PB_SmartKnobState
  latest_state : PB_SmartKnobState
deriving Repr, DecidableEq

/-- Embedding of `RootTask::shouldBroadcastState` (root_task.cpp:667-682);
`now` stands for the `millis()` read. -/
def shouldBroadcastState (now : ℕ) (rt : RootTaskBroadcast)
    (current_state : PB_SmartKnobState) : Bool :=
  if usub32 now rt.last_broadcast_time < rt.max_broadcast_interval then
    false
  else
    let position_changed :=
      rt.position_change_threshold ≤
        cabs (current_state.sub_position_unit -
          rt.last_broadcast_state.sub_position_unit)
    let press_changed :=
      current_state.press_nonce ≠ rt.last_broadcast_state.press_nonce
    let config_changed :=
      current_state.config_id ≠ rt.last_broadcast_state.config_id
    decide position_changed || decide press_changed || decide config_changed

/-- Embedding of `RootTask::checkAndBroadcastState` (root_task.cpp:684-697):
returns the updated broadcast bookkeeping and whether a snapshot was sent
(`sendCurrentKnobState` is wire I/O, represented by the boolean). -/
def checkAndBroadcastState (now : ℕ) (rt : RootTaskBroadcast) :
    RootTaskBroadcast × Bool :=
  if !rt.auto_broadcast_enabled then
    (rt, false)
  else if shouldBroadcastState now rt rt.latest_state then
    ({ rt with
        last_broadcast_state := rt.latest_state
        last_broadcast_time := now }, true)
  else
    (rt, false)

/-- A concrete broadcast state used to instantiate hypotheses of the gate
theorem: interval 100 ms, threshold 0.1, a pending position delta of 0.2. -/
def rtExample : RootTaskBroadcast where
  auto_broadcast_enabled := true
  position_change_threshold := 1/10
  max_broadcast_interval := 100
  last_broadcast_time := 0
  last_broadcast_state :=
    { current_position := 0, sub_position_unit := 0, press_nonce := 0
      config_id := "k1" }
  latest_state :=
    { current_position := 0, sub_position_unit := 1/5, press_nonce := 0
      config_id := "k1" }

/-- The broadcast state right after the example publish at t = 1000. -/
def rtExample1 : RootTaskBroadcast :=
  { rtExample with
      last_broadcast_state := rtExample.latest_state
      last_broadcast_time := 1000 }

/-- The `PB_ComponentType` protobuf enum as used by the factory switch in
`ComponentManager::createComponentByType`: the two recognized tags and one
stand-in for every unrecognized value (the `default:` branch). -/
inductive PB_ComponentType where
  | TOGGLE
  | MULTI_CHOICE
  | UNKNOWN
deriving Repr, DecidableEq

/-- The `which_component_config` union discriminator of `PB_AppComponent`:
which type-specific payload is present. -/
inductive WhichComponentConfig where
  | toggle_tag
  | multi_choice_tag
  | no_tag
deriving Repr, DecidableEq

/-- Fields of `PB_ToggleConfig` (float fields as rationals, hues as `ℤ` for
C `int32_t`). -/
structure PB_ToggleConfig where
  off_label : String
  on_label : String
  snap_point : ℚ
  snap_point_bias : ℚ
  detent_strength_unit : ℚ
  off_led_hue : ℤ
  on_led_hue : ℤ
  initial_state : Bool
deriving Repr, DecidableEq

/-- Fields of `PB_MultiChoiceConfig` read by the embedded code.  The nanopb
fixed `options` array is modelled as the list of decoded option strings;
`options_count` is the decoded entry count (the motor-feel fields
`detent_strength_unit`, `endstop_strength_unit` and `led_hue` feed only the
motor profile and are omitted). -/
structure PB_MultiChoiceConfig where
  options : List String
  options_count : ℕ
  initial_index : ℤ
deriving Repr, DecidableEq

/-- A `PB_AppComponent` configuration message.  Both union arms are carried;
`which_component_config` says which one the wire message actually held. -/
structure PB_AppComponent where
  component_id : String
  display_name : String
  type : PB_ComponentType
  which_component_config : WhichComponentConfig
  toggle : PB_ToggleConfig
  multi_choice : PB_MultiChoiceConfig
deriving Repr, DecidableEq

/-- The `memset 0` / protobuf-zero `PB_AppComponent` (the claims never read
the enum zero values, so `UNKNOWN` / `no_tag` stand for them). -/
def PB_AppComponent.zero : PB_AppComponent where
  component_id := ""
  display_name := ""
  type := .UNKNOWN
  which_component_config := .no_tag
  toggle :=
    { off_label := "", on_label := "", snap_point := 0, snap_point_bias := 0
      detent_strength_unit := 0, off_led_hue := 0, on_led_hue := 0
      initial_state := false }
  multi_choice := { options := [], options_count := 0, initial_index := 0 }

/-- C truncated remainder `a % n` on `int32_t` operands (for `n > 0`): the
result carries the sign of the dividend. -/
def cRem (a n : ℤ) : ℤ := if 0 ≤ a then a % n else -((-a) % n)

/-- State owned by a `ToggleComponent` (toggle_component.cpp): the stored
`PB_ToggleConfig`, the domain flag and the chatter-suppression bookkeeping.
Display/LED/motor queues are I/O collaborators and carry no modelled state. -/
structure ToggleComponentState where
  component_id : String
  component_config : PB_AppComponent
  config : PB_ToggleConfig
  current_state : Bool
  last_knob_state : Bool
  last_knob_position : ℚ
  last_state_change_time : ℕ
deriving Repr, DecidableEq

/-- Embedding of the `ToggleComponent` constructor defaults
(toggle_component.cpp:11-42). -/
def ToggleComponent.init (component_id : String) : ToggleComponentState where
  component_id := component_id
  component_config := PB_AppComponent.zero
  config :=
    { off_label := "Off", on_label := "On", snap_point := 1/2
      snap_point_bias := 0, detent_strength_unit := 1/2, off_led_hue := 0
      on_led_hue := 120, initial_state := false }
  current_state := false
  last_knob_state := false
  last_knob_position := 0
  last_state_change_time := 0

/-- Embedding of `ToggleComponent::configure` (toggle_component.cpp:44-86):
validate the type tag and payload tag, store the configuration with the
clamped haptic parameters and wrapped LED hues, and reset the domain state
to `initial_state`.  The trailing `updateMotorConfig/updateLEDs/updateDisplay`
calls are queue I/O and carry no component state. -/
def ToggleComponent.configure (s : ToggleComponentState)
    (config : PB_AppComponent) : ToggleComponentState × Bool :=
  if config.type ≠ .TOGGLE then (s, false)
  else if config.which_component_config ≠ .toggle_tag then (s, false)
  else
    let c0 := config.toggle
    let offh0 := cRem c0.off_led_hue 360
    let onh0 := cRem c0.on_led_hue 360
    let c1 : PB_ToggleConfig :=
      { c0 with
          snap_point := max (1/10) (min 1 c0.snap_point)
          snap_point_bias := max (-1) (min 1 c0.snap_point_bias)
          detent_strength_unit := max 0 (min 1 c0.detent_strength_unit)
          off_led_hue := if offh0 < 0 then offh0 + 360 else offh0
          on_led_hue := if onh0 < 0 then onh0 + 360 else onh0 }
    ({ s with
        component_config := config
        config := c1
        current_state := c1.initial_state
        last_knob_state := c1.initial_state }, true)

/-- Embedding of `ToggleComponent::getAdjustedPosition`
(toggle_component.cpp:273-302): asymmetric bias scaling followed by the
normalization of the raw knob position into `[0, 1]`. -/
def ToggleComponent.getAdjustedPosition (config : PB_ToggleConfig)
    (knob_position : ℚ) : ℚ :=
  let adjusted :=
    if config.snap_point_bias ≠ 0 then
      if 0 < config.snap_point_bias then
        if knob_position < 0 then
          knob_position * (1 + config.snap_point_bias)
        else
          knob_position * (1 - config.snap_point_bias * (1/2))
      else
        if 0 < knob_position then
          knob_position * (1 - config.snap_point_bias)
        else
          knob_position * (1 + config.snap_point_bias * (1/2))
    else knob_position
  (adjusted + 1) / 2

/-- Embedding of `ToggleComponent::shouldToggleState`
(toggle_component.cpp:228-247): flip when the normalized position sits on the
other side of `snap_point` than the current state, unless the hysteresis band
(`SNAP_THRESHOLD = 0.1`, against the last stored raw position) suppresses
it. -/
def ToggleComponent.shouldToggleState (s : ToggleComponentState)
    (knob_position : ℚ) : Bool :=
  let adjusted := ToggleComponent.getAdjustedPosition s.config knob_position
  let knob_indicates_on : Bool := decide (s.config.snap_point < adjusted)
  let should_change : Bool := knob_indicates_on != s.current_state
  if should_change ∧ cabs (adjusted - s.last_knob_position) < 1/10 then
    false
  else
    should_change

/-- Embedding of `ToggleComponent::handleKnobInput`
(toggle_component.cpp:88-110); `now` stands for the `millis()` read.  During
the `DEBOUNCE_TIME_MS = 50` window the handler returns before touching any
state (including `last_knob_position_`); otherwise it flips the state via
`changeState` when `shouldToggleState` fires, then records the raw
position. -/
def ToggleComponent.handleKnobInput (now : ℕ) (s : ToggleComponentState)
    (state_position : ℚ) : ToggleComponentState :=
  if usub32 now s.last_state_change_time < 50 then s
  else
    let knob_position := state_position
    let should_toggle := ToggleComponent.shouldToggleState s knob_position
    let s1 :=
      if should_toggle ∧ 50 ≤ usub32 now s.last_state_change_time then
        { s with
            current_state := !s.current_state
            last_state_change_time := now }
      else s
    { s1 with last_knob_position := knob_position }

/-- The C5 test configuration message: a toggle with `snap_point = 0.5`,
zero bias and initial state off. -/
def toggleCfgC5 : PB_AppComponent :=
  { PB_AppComponent.zero with
      component_id := "t1"
      type := .TOGGLE
      which_component_config := .toggle_tag
      toggle :=
        { off_label := "Off", on_label := "On", snap_point := 1/2
          snap_point_bias := 0, detent_strength_unit := 1/2
          off_led_hue := 0, on_led_hue := 120, initial_state := false } }

/-- The toggle state configured from `toggleCfgC5`. -/
def toggleS0 : ToggleComponentState :=
  (ToggleComponent.configure (ToggleComponent.init "t1") toggleCfgC5).1

/-- A toggle configuration message with every numeric field out of range,
used to instantiate the clamping invariant. -/
def toggleCfgC9 : PB_AppComponent :=
  { PB_AppComponent.zero with
      component_id := "t9"
      type := .TOGGLE
      which_component_config := .toggle_tag
      toggle :=
        { off_label := "Off", on_label := "On", snap_point := 5
          snap_point_bias := -3, detent_strength_unit := 2
          off_led_hue := -400, on_led_hue := 725, initial_state := true } }

/-- The toggle state configured from `toggleCfgC9`. -/
def toggleS9 : ToggleComponentState :=
  (ToggleComponent.configure (ToggleComponent.init "t9") toggleCfgC9).1

/-- Modelled from the spec: the `EntityStateUpdate` struct definition is not
under `src/` (only its uses are).  Per the spec's `StateUpdateEvent`
(component id, opaque serialized state, changed flag) and the firmware's
uniform `EntityStateUpdate new_state;` default-construction idiom, the
default value is the empty/unchanged event. -/
structure EntityStateUpdate where
  app_id : String := ""
  entity_id : String := ""
  state : String := ""
  changed : Bool := false
deriving Repr, DecidableEq

instance : Inhabited EntityStateUpdate := ⟨{}⟩

/-- C `round()` — round half away from zero — as applied to the reported
position in `MultipleChoice::updateStateFromKnob`
(`(int)round(state.current_position)`). -/
def roundC (q : ℚ) : ℤ := if 0 ≤ q then ⌊q + 1/2⌋ else -⌊-q + 1/2⌋

/-- State owned by a `MultipleChoice` component
(component_multiple_choice.cpp / .h): the stored (possibly truncated)
`PB_MultiChoiceConfig`, the `configured_` flag and the integer positions.
LVGL labels and the motor profile are display/haptic I/O and carry no
modelled state. -/
structure MultipleChoiceState where
  component_id : String
  component_config : PB_AppComponent
  config : PB_MultiChoiceConfig
  configured : Bool
  current_position : ℤ
  last_position : ℤ
deriving Repr, DecidableEq

/-- Embedding of the `MultipleChoice` constructor
(component_multiple_choice.cpp:7-67): validate the type and payload tags
(on mismatch the constructor returns early with `configured_ = false`;
`current_position` is then indeterminate in the C++ and is modelled as 0 —
no claim reads it in that state), truncate `options_count` to 20, and clamp
the initial position into the stored range (yielding −1 when the option
list is empty). -/
def MultipleChoice.init (config : PB_AppComponent) : MultipleChoiceState :=
  if config.type ≠ .MULTI_CHOICE then
    { component_id := config.component_id
      component_config := PB_AppComponent.zero
      config := PB_AppComponent.zero.multi_choice, configured := false
      current_position := 0, last_position := 0 }
  else if config.which_component_config ≠ .multi_choice_tag then
    { component_id := config.component_id
      component_config := PB_AppComponent.zero
      config := PB_AppComponent.zero.multi_choice, configured := false
      current_position := 0, last_position := 0 }
  else
    let cfg0 := config.multi_choice
    let cfg1 :=
      if 20 < cfg0.options_count then { cfg0 with options_count := 20 }
      else cfg0
    let p0 : ℤ := cfg0.initial_index
    let p1 := if p0 < 0 then 0 else p0
    let p2 :=
      if (cfg1.options_count : ℤ) ≤ p1 then (cfg1.options_count : ℤ) - 1
      else p1
    { component_id := config.component_id, component_config := config
      config := cfg1, configured := true, current_position := p2
      last_position := p2 }

/-- Embedding of `MultipleChoice::get_selected_text`
(component_multiple_choice.cpp:213-220): the empty string when unconfigured
or the position is outside the stored range, otherwise the option at the
current position. -/
def MultipleChoice.get_selected_text (s : MultipleChoiceState) : String :=
  if s.configured = false ∨ s.current_position < 0 ∨
      (s.config.options_count : ℤ) ≤ s.current_position then ""
  else s.config.options.getD s.current_position.toNat ""

/-- Embedding of `MultipleChoice::updateStateFromKnob`
(component_multiple_choice.cpp:125-181): round the reported position, clamp
it into the stored range, and emit a changed event (with the selected text
truncated to 27 characters plus an ellipsis when longer than 30, then
printed through `%.30s`) exactly when the clamped position differs from the
current one.  The motor-profile and display refreshes on change are
haptic/display I/O and carry no modelled state. -/
def MultipleChoice.updateStateFromKnob (s : MultipleChoiceState)
    (state_position : ℚ) : MultipleChoiceState × EntityStateUpdate :=
  if s.configured = false then (s, default)
  else
    let p0 := roundC state_position
    let p1 := if p0 < 0 then 0 else p0
    let p2 :=
      if (s.config.options_count : ℤ) ≤ p1 then (s.config.options_count : ℤ) - 1
      else p1
    if p2 ≠ s.current_position then
      let s1 := { s with current_position := p2 }
      let text0 := MultipleChoice.get_selected_text s1
      let safe_text := if 30 < text0.length then text0.take 27 ++ "..." else text0
      (s1,
        { app_id := s.component_id, entity_id := s.component_id
          state := "\x7b\"selected_index\": " ++ toString p2 ++
            ", \"selected_text\": \"" ++ safe_text.take 30 ++ "\"\x7d"
          changed := true })
    else (s, default)

/-- Twenty-five option strings, in submitted order. -/
def opts25 : List String :=
  ["O1", "O2", "O3", "O4", "O5", "O6", "O7", "O8", "O9", "O10",
   "O11", "O12", "O13", "O14", "O15", "O16", "O17", "O18", "O19", "O20",
   "O21", "O22", "O23", "O24", "O25"]

/-- A MultipleChoice configuration message carrying 25 options. -/
def mcCfg25 : PB_AppComponent :=
  { PB_AppComponent.zero with
      component_id := "m1"
      type := .MULTI_CHOICE
      which_component_config := .multi_choice_tag
      multi_choice := { options := opts25, options_count := 25, initial_index := 0 } }

/-- The MultipleChoice state constructed from `mcCfg25`. -/
def mcS25 : MultipleChoiceState := MultipleChoice.init mcCfg25

/-- A MultipleChoice configuration message carrying zero options (and an
arbitrary nonzero initial index, to exercise the clamp). -/
def mcCfg0 : PB_AppComponent :=
  { PB_AppComponent.zero with
      component_id := "m0"
      type := .MULTI_CHOICE
      which_component_config := .multi_choice_tag
      multi_choice := { options := [], options_count := 0, initial_index := 3 } }

/-- The JSON produced by `ToggleComponent::getState`
(toggle_component.cpp:162-169), via `getCurrentLabel`. -/
def ToggleComponent.getStateString (s : ToggleComponentState) : String :=
  "\x7b\"state\": " ++ (if s.current_state then "true" else "false") ++
    ", \"label\": \"" ++
    (if s.current_state then s.config.on_label else s.config.off_label) ++
    "\"\x7d"

/-- Modelled from the spec: the new-style `ToggleComponent::updateStateFromKnob`
override called by `ComponentManager::update` is not under `src/` (the file
there has the old-style `void handleKnobInput`).  Per spec §4.2, `onKnobUpdate`
runs the snap/hysteresis logic and returns a `changed` event exactly when the
domain value actually changes; modelled as the src `handleKnobInput`
transition plus that event rule, with the `getState` JSON as payload. -/
def ToggleComponent.updateStateFromKnob (now : ℕ) (s : ToggleComponentState)
    (pos : ℚ) : ToggleComponentState × EntityStateUpdate :=
  let s1 := ToggleComponent.handleKnobInput now s pos
  if s1.current_state ≠ s.current_state then
    (s1,
      { app_id := s.component_id, entity_id := s.component_id
        state := ToggleComponent.getStateString s1, changed := true })
  else (s1, default)

/-- Modelled from the spec: the new-style `ToggleComponent` constructor taking
`(mutex, config)` that `ComponentManager::createComponentByType` invokes is
not under `src/`; per spec §4.1 creation constructs the instance and applies
the configuration, modelled as the src constructor defaults followed by the
src `configure`. -/
def ToggleComponent.initFromConfig (config : PB_AppComponent) :
    ToggleComponentState :=
  (ToggleComponent.configure (ToggleComponent.init config.component_id)
    config).1

/-- The closed set of component variants the factory switch in
`ComponentManager::createComponentByType` can produce. -/
inductive Component where
  | toggle (s : ToggleComponentState)
  | multiChoice (s : MultipleChoiceState)
deriving Repr, DecidableEq

/-- The component's `app_id` (the new-style base copies
`config.component_id` into it; `ComponentManager::update` compares the knob
report's config id against it). -/
def Component.app_id : Component → String
  | .toggle s => s.component_id
  | .multiChoice s => s.component_id

/-- Virtual `configure` dispatch: the toggle applies
`ToggleComponent::configure` (toggle_component.cpp:44-86); `MultipleChoice`
merely reports its current `configured_` status without applying the new
message (component_multiple_choice.h:23). -/
def Component.configure : Component → PB_AppComponent → Component × Bool
  | .toggle s, cfg =>
    let r := ToggleComponent.configure s cfg
    (.toggle r.1, r.2)
  | .multiChoice s, _ => (.multiChoice s, s.configured)

/-- Virtual `updateStateFromKnob` dispatch. -/
def Component.updateStateFromKnob (now : ℕ) :
    Component → ℚ → Component × EntityStateUpdate
  | .toggle s, pos =>
    let r := ToggleComponent.updateStateFromKnob now s pos
    (.toggle r.1, r.2)
  | .multiChoice s, pos =>
    let r := MultipleChoice.updateStateFromKnob s pos
    (.multiChoice r.1, r.2)

/-- Modelled from the spec: `updateStateFromSystem`'s definition is not under
`src/`; it feeds system/app state to the component for display purposes and
produces no knob-update event, modelled as the identity on the component. -/
def Component.updateStateFromSystem (c : Component)
    (_state : PB_SmartKnobState) : Component := c

/-- `std::map::find` on the id→component map, modelled over an association
list ordered as inserted (key order is irrelevant to every claim). -/
def mapFind : List (String × Component) → String → Option Component
  | [], _ => none
  | (k, v) :: t, id => if k = id then some v else mapFind t id

/-- `components_[id] = c`: replace the mapped value if the key exists,
otherwise add the entry. -/
def mapInsert : List (String × Component) → String → Component →
    List (String × Component)
  | [], id, c => [(id, c)]
  | (k, v) :: t, id, c =>
    if k = id then (k, c) :: t else (k, v) :: mapInsert t id c

/-- `components_.erase(it)`: remove the (unique) entry with the given key. -/
def mapErase : List (String × Component) → String → List (String × Component)
  | [], _ => []
  | (k, v) :: t, id => if k = id then t else (k, v) :: mapErase t id

/-- The registry state: the owning id→component map and the active
reference.  The C++ stores `active_component_` as a `shared_ptr` aliasing a
map entry (and `destroyComponent` clears it on pointer equality with the
erased entry); the alias is modelled as the entry's key. -/
structure ComponentManager where
  components : List (String × Component)
  active_component : Option String
deriving Repr, DecidableEq

/-- Embedding of `ComponentManager::update` (component_manager.cpp:47-64):
no active component means an empty default event; a knob report whose
`config.id` differs from the active component's `app_id` is dropped;
otherwise the active component's knob handler runs (followed by
`updateStateFromSystem`) and its event is returned.  `now` stands for the
ambient clock the handlers read. -/
def ComponentManager.update (now : ℕ) (mgr : ComponentManager)
    (state : PB_SmartKnobState) : ComponentManager × EntityStateUpdate :=
  match mgr.active_component with
  | none => (mgr, default)
  | some id =>
    match mapFind mgr.components id with
    | none => (mgr, default)
    | some c =>
      if state.config_id = Component.app_id c then
        let r := Component.updateStateFromKnob now c state.current_position
        let c2 := Component.updateStateFromSystem r.1 state
        ({ mgr with components := mapInsert mgr.components id c2 }, r.2)
      else (mgr, default)

/-- Embedding of `ComponentManager::setActiveComponent`
(component_manager.cpp:74-89): unknown ids fail and change nothing; found
ids become the active reference (the `setComponentMode(true)` flag and the
`render()` call are external I/O — see the lock-trace model). -/
def ComponentManager.setActiveComponent (mgr : ComponentManager)
    (component_id : String) : ComponentManager × Bool :=
  match mapFind mgr.components component_id with
  | none => (mgr, false)
  | some _ => ({ mgr with active_component := some component_id }, true)

/-- Embedding of `ComponentManager::createComponentByType`
(component_manager.cpp:219-243): the factory constructs a component for the
two recognized type tags — unconditionally, whatever the payload — and
returns null only for unknown tags. -/
def ComponentManager.createComponentByType (type : PB_ComponentType)
    (config : PB_AppComponent) : Option Component :=
  match type with
  | .TOGGLE => some (.toggle (ToggleComponent.initFromConfig config))
  | .MULTI_CHOICE => some (.multiChoice (MultipleChoice.init config))
  | .UNKNOWN => none

/-- Embedding of `ComponentManager::createComponent`
(component_manager.cpp:91-144): reject empty ids; delegate to the existing
instance's `configure` when the id exists; otherwise construct through the
factory and store the result (failing only when the factory returns null).
The `setMotorNotifier` hookup is motor I/O and carries no registry state. -/
def ComponentManager.createComponent (mgr : ComponentManager)
    (config : PB_AppComponent) : ComponentManager × Bool :=
  if config.component_id = "" then (mgr, false)
  else
    match mapFind mgr.components config.component_id with
    | some c =>
      let r := Component.configure c config
      ({ mgr with
          components := mapInsert mgr.components config.component_id r.1 },
        r.2)
    | none =>
      match ComponentManager.createComponentByType config.type config with
      | none => (mgr, false)
      | some comp =>
        ({ mgr with
            components := mapInsert mgr.components config.component_id comp },
          true)

/-- Embedding of `ComponentManager::destroyComponent`
(component_manager.cpp:146-167): unknown ids fail and change nothing; found
ids are erased, clearing the active reference when it aliased the erased
entry. -/
def ComponentManager.destroyComponent (mgr : ComponentManager)
    (component_id : String) : ComponentManager × Bool :=
  match mapFind mgr.components component_id with
  | none => (mgr, false)
  | some _ =>
    let active1 :=
      if mgr.active_component = some component_id then none
      else mgr.active_component
    ({ components := mapErase mgr.components component_id
       active_component := active1 }, true)

/-- The empty registry. -/
def emptyMgr : ComponentManager := { components := [], active_component := none }

/-- A MultipleChoice message whose payload tag is absent
(`which_component_config` does not carry the multi-choice arm): a malformed
type-specific payload. -/
def mcCfgBad : PB_AppComponent :=
  { PB_AppComponent.zero with
      component_id := "bad"
      type := .MULTI_CHOICE
      which_component_config := .no_tag
      multi_choice := { options := ["A"], options_count := 1, initial_index := 0 } }

/-- A registry holding the one component built from `mcCfg25`, inactive. -/
def mgr1 : ComponentManager :=
  { components := [("m1", Component.multiChoice mcS25)]
    active_component := none }

/-- A registry holding the one component built from `mcCfg25`, active. -/
def mgr2 : ComponentManager :=
  { components := [("m1", Component.multiChoice mcS25)]
    active_component := some "m1" }

/-- A knob report whose identity tag names a different component. -/
def stOther : PB_SmartKnobState :=
  { current_position := 0, sub_position_unit := 0, press_nonce := 0
    config_id := "other" }

/-- A knob report carrying the active component's identity and position 2. -/
def stM1 : PB_SmartKnobState :=
  { current_position := 2, sub_position_unit := 0, press_nonce := 0
    config_id := "m1" }

/-- Events observable along a registry operation, for the lock-discipline
analysis: `component_mutex_` acquisition/release (`SemaphoreGuard` acquires
on construction and releases at scope exit), structural map writes, active
reference writes, in-place component reconfiguration, rendering, and
motor-profile pushes. -/
inductive RegEvent where
  | acquire
  | release
  | mapMutate
  | activeRefMutate
  | compConfigure
  | renderEv
  | motorPush
deriving Repr, DecidableEq

/-- Checks a trace starting from the given lock state: structural writes
(`mapMutate`, `activeRefMutate`, `compConfigure`) must happen while the lock
is held, and rendering / motor pushes only while it is not held. -/
def traceOkFrom : Bool → List RegEvent → Bool
  | _, [] => true
  | _, .acquire :: rest => traceOkFrom true rest
  | _, .release :: rest => traceOkFrom false rest
  | held, .mapMutate :: rest => held && traceOkFrom held rest
  | held, .activeRefMutate :: rest => held && traceOkFrom held rest
  | held, .compConfigure :: rest => held && traceOkFrom held rest
  | held, .renderEv :: rest => !held && traceOkFrom held rest
  | held, .motorPush :: rest => !held && traceOkFrom held rest

/-- A whole-operation trace starts with the lock free. -/
def traceOk (tr : List RegEvent) : Bool := traceOkFrom false tr

/-- Event trace of `ComponentManager::setActiveComponent`
(component_manager.cpp:74-89): the `SemaphoreGuard` acquires
`component_mutex_` at entry; when the id is found the active pointer is set
and `render()` is invoked *before* the guard goes out of scope, so the
render happens inside the critical section. -/
def setActiveComponentTrace (found : Bool) : List RegEvent :=
  if found then [.acquire, .activeRefMutate, .renderEv, .release]
  else [.acquire, .release]

/-- Event trace of `ComponentManager::createComponent`
(component_manager.cpp:91-144): the function takes no `SemaphoreGuard` at
all; the reconfigure path mutates the existing instance, the create path
assigns `components_[id]`. -/
def createComponentTrace (emptyId existing knownType : Bool) : List RegEvent :=
  if emptyId then []
  else if existing then [.compConfigure]
  else if knownType then [.mapMutate]
  else []

/-- Event trace of `ComponentManager::destroyComponent`
(component_manager.cpp:146-167): no `SemaphoreGuard`; when found, the
active pointer is cleared if it aliased the entry and the entry erased. -/
def destroyComponentTrace (found wasActive : Bool) : List RegEvent :=
  if found then
    if wasActive then [.activeRefMutate, .mapMutate] else [.mapMutate]
  else []

/-- C3 as claimed: every structural path of create/reconfigure/activate/
destroy keeps its mutations inside the critical section and its rendering
and motor pushes outside it. -/
def registryLockDisciplineClaim : Prop :=
  (∀ found, traceOk (setActiveComponentTrace found) = true) ∧
  (∀ emptyId existing knownType,
    traceOk (createComponentTrace emptyId existing knownType) = true) ∧
  (∀ found wasActive,
    traceOk (destroyComponentTrace found wasActive) = true)

theorem usub32_eq_sub {a b : ℕ} (hle : b ≤ a) (hlt : a - b < U32) :
    usub32 a b = a - b := by
  unfold usub32 U32 at *
  omega

theorem cabs_abs (x : ℚ) : cabs x = |x| := by
  unfold cabs
  rcases lt_trichotomy 0 x with h | h | h
  · rw [if_pos h, abs_of_pos h]
  · simp [← h]
  · rw [if_neg (by linarith), abs_of_neg h]

/-- C1: the broadcast gate publishes iff the time since the last publish is at
least `max_broadcast_interval_` and at least one change condition holds
(position delta at least the threshold, press nonce changed, or config id
changed); and the interval is a hard floor: once a publish happened at `t1`,
no report less than the interval later is published, regardless of its
delta. -/
theorem broadcast_gate_C1 :
    (∀ (now : ℕ) (rt : RootTaskBroadcast) (cur : PB_SmartKnobState),
      rt.last_broadcast_time ≤ now →
      now - rt.last_broadcast_time < U32 →
      (shouldBroadcastState now rt cur = true ↔
        (rt.max_broadcast_interval ≤ now - rt.last_broadcast_time ∧
          (rt.position_change_threshold ≤
              cabs (cur.sub_position_unit -
                rt.last_broadcast_state.sub_position_unit) ∨
            cur.press_nonce ≠ rt.last_broadcast_state.press_nonce ∨
            cur.config_id ≠ rt.last_broadcast_state.config_id)))) ∧
    (∀ (t1 t2 : ℕ) (rt rt1 : RootTaskBroadcast),
      checkAndBroadcastState t1 rt = (rt1, true) →
      t1 ≤ t2 →
      t2 - t1 < rt1.max_broadcast_interval →
      rt1.max_broadcast_interval ≤ U32 →
      (checkAndBroadcastState t2 rt1).2 = false) := by
  constructor
  · intro now rt cur hle hlt
    unfold shouldBroadcastState
    rw [usub32_eq_sub hle hlt]
    by_cases hint : now - rt.last_broadcast_time < rt.max_broadcast_interval
    · rw [if_pos hint]
      refine iff_of_false (by simp) ?_
      rintro ⟨hge, -⟩
      omega
    · rw [if_neg hint]
      simp only [Bool.or_eq_true, decide_eq_true_eq]
      constructor
      · intro h
        exact ⟨by omega, by tauto⟩
      · intro h
        tauto
  · intro t1 t2 rt rt1 hpub hle hlt hintU
    have h1 : rt1.last_broadcast_time = t1 ∧
        rt1.auto_broadcast_enabled = rt.auto_broadcast_enabled := by
      unfold checkAndBroadcastState at hpub
      by_cases hen : rt.auto_broadcast_enabled
      · rw [if_neg (by simp [hen])] at hpub
        by_cases hsb : shouldBroadcastState t1 rt rt.latest_state
        · rw [if_pos hsb] at hpub
          have := (Prod.mk.injEq _ _ _ _).mp hpub
          rw [← this.1]
          exact ⟨rfl, rfl⟩
        · rw [if_neg hsb] at hpub
          exact absurd ((Prod.mk.injEq _ _ _ _).mp hpub).2 (by simp)
      · rw [if_pos (by simp [hen])] at hpub
        exact absurd ((Prod.mk.injEq _ _ _ _).mp hpub).2 (by simp)
    have hgate : shouldBroadcastState t2 rt1 rt1.latest_state = false := by
      unfold shouldBroadcastState
      rw [h1.1, usub32_eq_sub hle (by omega), if_pos (by omega)]
    unfold checkAndBroadcastState
    by_cases hen : rt1.auto_broadcast_enabled
    · rw [if_neg (by simp [hen]), hgate]
      simp
    · rw [if_pos (by simp [hen])]

/-- Witness for C1 at concrete inputs: with interval 100 and threshold 0.1, a
report at t = 1000 with delta 0.2 is published, and a second report 50 ms
later is not, despite carrying the same pending delta. -/
theorem broadcast_gate_C1_witness :
    shouldBroadcastState 1000 rtExample rtExample.latest_state = true ∧
    (checkAndBroadcastState 1050 (checkAndBroadcastState 1000 rtExample).1).2
      = false := by
  have hmain := broadcast_gate_C1
  have hshould : shouldBroadcastState 1000 rtExample rtExample.latest_state
      = true :=
    (hmain.1 1000 rtExample rtExample.latest_state
        (by norm_num [rtExample]) (by norm_num [rtExample, U32])).mpr
      ⟨by norm_num [rtExample], Or.inl (by norm_num [rtExample, cabs])⟩
  have hen : rtExample.auto_broadcast_enabled = true := rfl
  have hpub : checkAndBroadcastState 1000 rtExample = (rtExample1, true) := by
    unfold checkAndBroadcastState
    rw [hen, hshould]
    rfl
  refine ⟨hshould, ?_⟩
  have hfst : (checkAndBroadcastState 1000 rtExample).1 = rtExample1 := by
    rw [hpub]
  rw [hfst]
  exact hmain.2 1000 1050 rtExample rtExample1 hpub (by norm_num)
    (by norm_num [rtExample1, rtExample]) (by norm_num [rtExample1, rtExample, U32])

theorem cRem360_bounds (a : ℤ) : -360 < cRem a 360 ∧ cRem a 360 < 360 := by
  unfold cRem
  split
  · have h1 := Int.emod_nonneg a (by norm_num : (360:ℤ) ≠ 0)
    have h2 := Int.emod_lt_of_pos a (by norm_num : (0:ℤ) < 360)
    omega
  · have h1 := Int.emod_nonneg (-a) (by norm_num : (360:ℤ) ≠ 0)
    have h2 := Int.emod_lt_of_pos (-a) (by norm_num : (0:ℤ) < 360)
    omega

theorem hueFix_bounds (a : ℤ) :
    0 ≤ (if cRem a 360 < 0 then cRem a 360 + 360 else cRem a 360) ∧
    (if cRem a 360 < 0 then cRem a 360 + 360 else cRem a 360) < 360 := by
  have h := cRem360_bounds a
  split <;> omega

/-- C5 counterexample: with the constructor-default configuration
(`snap_point = 0.5`, zero bias, state off, `last_knob_position = 0`), a
single knob report at raw position 0.4 already flips the toggle to ON,
because `getAdjustedPosition` normalizes the raw position to
`(0.4 + 1) / 2 = 0.7 > 0.5`; the claim asserts the state never flips while
the position stays within 0.0..0.4. -/
theorem toggle_snap_C5_counterexample :
    (ToggleComponent.handleKnobInput 100 toggleS0 (2/5)).current_state
      = true := by
  norm_num [toggleS0, ToggleComponent.configure, ToggleComponent.init,
    toggleCfgC5, cRem, ToggleComponent.handleKnobInput,
    ToggleComponent.shouldToggleState, ToggleComponent.getAdjustedPosition,
    usub32, U32, cabs]

/-- C5 amended: with `snap_point = 0.5` and zero bias the code compares the
normalized position `(p + 1) / 2` against the snap point, so the ON region
is every raw position above 0.  Driving the position from 0.0 to 0.4 flips
the state to ON, and returning to 0.0 flips it back to OFF; driving to 0.6
flips it to ON exactly once — repeated reports at 0.6 cause no further
flip. -/
theorem toggle_snap_C5 :
    toggleS0.current_state = false ∧
    toggleS0.config.snap_point = 1/2 ∧
    toggleS0.config.snap_point_bias = 0 ∧
    (ToggleComponent.handleKnobInput 100 toggleS0 (2/5)).current_state
      = true ∧
    (ToggleComponent.handleKnobInput 200
      (ToggleComponent.handleKnobInput 100 toggleS0 (2/5)) 0).current_state
      = false ∧
    (ToggleComponent.handleKnobInput 100 toggleS0 (3/5)).current_state
      = true ∧
    (ToggleComponent.handleKnobInput 200
      (ToggleComponent.handleKnobInput 100 toggleS0 (3/5)) (3/5)).current_state
      = true ∧
    (ToggleComponent.handleKnobInput 300
      (ToggleComponent.handleKnobInput 200
        (ToggleComponent.handleKnobInput 100 toggleS0 (3/5)) (3/5))
      (3/5)).current_state = true := by
  refine ⟨?_, ?_, ?_, ?_, ?_, ?_, ?_, ?_⟩ <;>
    norm_num [toggleS0, ToggleComponent.configure, ToggleComponent.init,
      toggleCfgC5, cRem, ToggleComponent.handleKnobInput,
      ToggleComponent.shouldToggleState, ToggleComponent.getAdjustedPosition,
      usub32, U32, cabs]

/-- C9: every successful `ToggleComponent::configure` leaves the stored
parameters clamped: `snap_point` in `[0.1, 1]`, `snap_point_bias` in
`[-1, 1]`, `detent_strength_unit` in `[0, 1]` and both LED hues in
`[0, 360)`, whatever the message carried. -/
theorem toggle_configure_C9 (s : ToggleComponentState) (cfg : PB_AppComponent)
    (s' : ToggleComponentState)
    (h : ToggleComponent.configure s cfg = (s', true)) :
    1/10 ≤ s'.config.snap_point ∧ s'.config.snap_point ≤ 1 ∧
    -1 ≤ s'.config.snap_point_bias ∧ s'.config.snap_point_bias ≤ 1 ∧
    0 ≤ s'.config.detent_strength_unit ∧ s'.config.detent_strength_unit ≤ 1 ∧
    0 ≤ s'.config.off_led_hue ∧ s'.config.off_led_hue < 360 ∧
    0 ≤ s'.config.on_led_hue ∧ s'.config.on_led_hue < 360 := by
  simp only [ToggleComponent.configure] at h
  split at h
  · exact absurd (congrArg Prod.snd h) (by simp)
  split at h
  · exact absurd (congrArg Prod.snd h) (by simp)
  obtain rfl : s' = _ := (Prod.ext_iff.mp h).1.symm
  exact ⟨le_max_left _ _, max_le (by norm_num) (min_le_left _ _),
    le_max_left _ _, max_le (by norm_num) (min_le_left _ _),
    le_max_left _ _, max_le (by norm_num) (min_le_left _ _),
    (hueFix_bounds _).1, (hueFix_bounds _).2,
    (hueFix_bounds _).1, (hueFix_bounds _).2⟩

/-- Witness for C9: configuring with `snap_point = 5`, `bias = -3`,
`detent = 2`, hues −400 and 725 succeeds and yields clamped values. -/
theorem toggle_configure_C9_witness :
    1/10 ≤ toggleS9.config.snap_point ∧ toggleS9.config.snap_point ≤ 1 ∧
    -1 ≤ toggleS9.config.snap_point_bias ∧
    toggleS9.config.snap_point_bias ≤ 1 ∧
    0 ≤ toggleS9.config.detent_strength_unit ∧
    toggleS9.config.detent_strength_unit ≤ 1 ∧
    0 ≤ toggleS9.config.off_led_hue ∧ toggleS9.config.off_led_hue < 360 ∧
    0 ≤ toggleS9.config.on_led_hue ∧ toggleS9.config.on_led_hue < 360 :=
  toggle_configure_C9 (ToggleComponent.init "t9") toggleCfgC9 toggleS9 (by
    norm_num [toggleS9, ToggleComponent.configure, ToggleComponent.init,
      toggleCfgC9, cRem])

theorem floor_half : ⌊(1/2 : ℚ)⌋ = 0 := by
  rw [Int.floor_eq_zero_iff]
  constructor <;> norm_num

theorem roundC_int (n : ℤ) : roundC (n : ℚ) = n := by
  unfold roundC
  split
  · rw [Int.floor_int_add, floor_half, add_zero]
  · have hcast : (-(n:ℚ)) = ((-n : ℤ) : ℚ) := by push_cast; ring
    rw [hcast, Int.floor_int_add, floor_half, add_zero, neg_neg]

theorem updateStateFromKnob_state_eq (s : MultipleChoiceState) (pos : ℚ) :
    (MultipleChoice.updateStateFromKnob s pos).1 =
      { s with current_position :=
          (MultipleChoice.updateStateFromKnob s pos).1.current_position } := by
  unfold MultipleChoice.updateStateFromKnob
  dsimp only
  split_ifs <;> rfl

/-- C4: a `MultipleChoice` configuration with more than 20 options is stored
configured with `options_count` truncated to 20 (the submitted option list
itself untouched), and every knob report resolves the selected index by
rounding the reported position and clamping it into
`[0, options_count - 1]`. -/
theorem multi_choice_C4 :
    (∀ cfg : PB_AppComponent,
      cfg.type = .MULTI_CHOICE →
      cfg.which_component_config = .multi_choice_tag →
      20 < cfg.multi_choice.options_count →
      (MultipleChoice.init cfg).configured = true ∧
      (MultipleChoice.init cfg).config.options_count = 20 ∧
      (MultipleChoice.init cfg).config.options = cfg.multi_choice.options) ∧
    (∀ (s : MultipleChoiceState) (pos : ℚ),
      s.configured = true → 1 ≤ s.config.options_count →
      (MultipleChoice.updateStateFromKnob s pos).1.current_position =
        max 0 (min ((s.config.options_count : ℤ) - 1) (roundC pos))) := by
  constructor
  · intro cfg h1 h2 h3
    simp only [MultipleChoice.init, h1, h2]
    norm_num [h3]
  · intro s pos hconf hcount
    have hc : ¬(s.configured = false) := by simp [hconf]
    unfold MultipleChoice.updateStateFromKnob
    rw [if_neg hc]
    generalize roundC pos = r
    dsimp only
    split_ifs with h1 h2 h3 h4 h5 h6 h7 h8 <;> dsimp only <;> omega

/-- Witness for C4: 25 submitted options are stored with count 20; a report
resolving to 19 selects the 20th submitted option `"O20"`, and a report
resolving to 30 clamps to index 19. -/
theorem multi_choice_C4_witness :
    mcS25.configured = true ∧ mcS25.config.options_count = 20 ∧
    (MultipleChoice.updateStateFromKnob mcS25 19).1.current_position = 19 ∧
    MultipleChoice.get_selected_text
      (MultipleChoice.updateStateFromKnob mcS25 19).1 = "O20" ∧
    (MultipleChoice.updateStateFromKnob mcS25 30).1.current_position = 19 := by
  have hmain := multi_choice_C4
  have h1 := hmain.1 mcCfg25 rfl rfl (by norm_num [mcCfg25])
  have hconf : mcS25.configured = true := h1.1
  have hcount : mcS25.config.options_count = 20 := h1.2.1
  have hr19 : roundC 19 = 19 := by
    rw [show (19:ℚ) = ((19:ℤ):ℚ) by norm_num, roundC_int]
  have hr30 : roundC 30 = 30 := by
    rw [show (30:ℚ) = ((30:ℤ):ℚ) by norm_num, roundC_int]
  have h19 : (MultipleChoice.updateStateFromKnob mcS25 19).1.current_position
      = 19 := by
    rw [hmain.2 mcS25 19 hconf (by omega), hcount, hr19]
    omega
  have h30 : (MultipleChoice.updateStateFromKnob mcS25 30).1.current_position
      = 19 := by
    rw [hmain.2 mcS25 30 hconf (by omega), hcount, hr30]
    omega
  have hst : (MultipleChoice.updateStateFromKnob mcS25 19).1 =
      { mcS25 with current_position := 19 } := by
    rw [updateStateFromKnob_state_eq, h19]
  refine ⟨hconf, hcount, h19, ?_, h30⟩
  rw [hst]
  decide

/-- C10: the selected-text read is the empty string whenever the component is
unconfigured or the current position lies outside the stored option range;
and a zero-option configuration clamps the initial position to −1 and keeps
it there under every sequence of knob reports, so every selected-text read
yields the empty string. -/
theorem multi_choice_C10 :
    (∀ s : MultipleChoiceState,
      s.configured = false ∨ s.current_position < 0 ∨
        (s.config.options_count : ℤ) ≤ s.current_position →
      MultipleChoice.get_selected_text s = "") ∧
    (∀ cfg : PB_AppComponent,
      cfg.type = .MULTI_CHOICE →
      cfg.which_component_config = .multi_choice_tag →
      cfg.multi_choice.options_count = 0 →
      (MultipleChoice.init cfg).current_position = -1 ∧
      ∀ reports : List ℚ,
        (reports.foldl (fun s p => (MultipleChoice.updateStateFromKnob s p).1)
            (MultipleChoice.init cfg)).current_position = -1 ∧
        MultipleChoice.get_selected_text
          (reports.foldl (fun s p => (MultipleChoice.updateStateFromKnob s p).1)
            (MultipleChoice.init cfg)) = "") := by
  have hempty : ∀ s : MultipleChoiceState,
      s.configured = false ∨ s.current_position < 0 ∨
        (s.config.options_count : ℤ) ≤ s.current_position →
      MultipleChoice.get_selected_text s = "" := by
    intro s h
    unfold MultipleChoice.get_selected_text
    exact if_pos h
  constructor
  · exact hempty
  · intro cfg h1 h2 h3
    have hinit : (MultipleChoice.init cfg).configured = true ∧
        (MultipleChoice.init cfg).config.options_count = 0 ∧
        (MultipleChoice.init cfg).current_position = -1 := by
      unfold MultipleChoice.init
      rw [if_neg (by simp [h1]), if_neg (by simp [h2])]
      dsimp only
      rw [if_neg (by omega)]
      refine ⟨rfl, h3, ?_⟩
      split_ifs <;> omega
    obtain ⟨hcf, hct, hpos⟩ := hinit
    have hstep : ∀ (p : ℚ) (s : MultipleChoiceState), s.configured = true →
        s.config.options_count = 0 → s.current_position = -1 →
        (MultipleChoice.updateStateFromKnob s p).1 = s := by
      intro p s m1 m2 m3
      unfold MultipleChoice.updateStateFromKnob
      rw [if_neg (by simp [m1])]
      dsimp only
      rw [if_neg (by rw [m2, m3]; split_ifs <;> omega)]
    have hfold : ∀ (l : List ℚ) (s : MultipleChoiceState),
        s.configured = true → s.config.options_count = 0 →
        s.current_position = -1 →
        l.foldl (fun s p => (MultipleChoice.updateStateFromKnob s p).1) s
          = s := by
      intro l
      induction l with
      | nil => intro s _ _ _; rfl
      | cons a t ih =>
        intro s m1 m2 m3
        rw [List.foldl_cons, hstep a s m1 m2 m3]
        exact ih s m1 m2 m3
    refine ⟨hpos, ?_⟩
    intro reports
    rw [hfold reports _ hcf hct hpos]
    exact ⟨hpos, hempty _ (Or.inr (Or.inl (by rw [hpos]; norm_num)))⟩

/-- Witness for C10: the zero-option configuration `mcCfg0` (initial index 3)
clamps to position −1, stays at −1 through the report sequence
`[5, −2, 0]`, and always reads back the empty selected text. -/
theorem multi_choice_C10_witness :
    MultipleChoice.get_selected_text (MultipleChoice.init mcCfg0) = "" ∧
    (MultipleChoice.init mcCfg0).current_position = -1 ∧
    (([(5:ℚ), -2, 0]).foldl
      (fun s p => (MultipleChoice.updateStateFromKnob s p).1)
      (MultipleChoice.init mcCfg0)).current_position = -1 ∧
    MultipleChoice.get_selected_text
      (([(5:ℚ), -2, 0]).foldl
        (fun s p => (MultipleChoice.updateStateFromKnob s p).1)
        (MultipleChoice.init mcCfg0)) = "" := by
  have h := multi_choice_C10.2 mcCfg0 rfl rfl rfl
  refine ⟨?_, h.1, (h.2 [5, -2, 0]).1, (h.2 [5, -2, 0]).2⟩
  exact multi_choice_C10.1 _ (Or.inr (Or.inl (by rw [h.1]; norm_num)))

theorem mapInsert_keys (m : List (String × Component)) (k : String)
    (v c : Component) (h : mapFind m k = some c) :
    (mapInsert m k v).map Prod.fst = m.map Prod.fst := by
  induction m with
  | nil => simp [mapFind] at h
  | cons hd t ih =>
    obtain ⟨k0, v0⟩ := hd
    by_cases hk : k0 = k
    · simp [mapInsert, hk]
    · simp only [mapFind, if_neg hk] at h
      simp [mapInsert, hk, ih h]

/-- C2: the registry's `update` returns the default (empty/unchanged) event
and leaves every component untouched when there is no active component or
when the report's identity differs from the active component's `app_id`;
otherwise it returns exactly the active component's knob-handler event and
stores that handler's updated state. -/
theorem registry_update_C2 (now : ℕ) (mgr : ComponentManager)
    (st : PB_SmartKnobState) :
    (mgr.active_component = none →
      ComponentManager.update now mgr st = (mgr, default)) ∧
    (∀ id c, mgr.active_component = some id →
      mapFind mgr.components id = some c →
      (st.config_id ≠ Component.app_id c →
        ComponentManager.update now mgr st = (mgr, default)) ∧
      (st.config_id = Component.app_id c →
        ComponentManager.update now mgr st =
          ({ mgr with
              components := mapInsert mgr.components id
                              (Component.updateStateFromSystem
                                (Component.updateStateFromKnob now c
                                  st.current_position).1 st) },
            (Component.updateStateFromKnob now c st.current_position).2))) := by
  constructor
  · intro h
    simp only [ComponentManager.update, h]
  · intro id c ha hf
    simp only [ComponentManager.update, ha, hf]
    constructor
    · intro hne
      rw [if_neg hne]
    · intro heq
      rw [if_pos heq]

/-- Witness for C2: with `mcS25` active under id `"m1"`, a report tagged
`"other"` is dropped: the registry and the event are unchanged. -/
theorem registry_update_C2_witness :
    ComponentManager.update 0 mgr2 stOther = (mgr2, default) := by
  have h := (registry_update_C2 0 mgr2 stOther).2 "m1"
    (Component.multiChoice mcS25) rfl rfl
  exact h.1 (by decide)

/-- C7: activating an id that is not in the registry fails and returns the
registry unchanged (same map, same active reference). -/
theorem setActive_missing_C7 (mgr : ComponentManager) (component_id : String)
    (h : mapFind mgr.components component_id = none) :
    ComponentManager.setActiveComponent mgr component_id = (mgr, false) := by
  unfold ComponentManager.setActiveComponent
  rw [h]

/-- Witness for C7: `activate "missing"` on a one-component registry. -/
theorem setActive_missing_C7_witness :
    ComponentManager.setActiveComponent mgr1 "missing" = (mgr1, false) :=
  setActive_missing_C7 mgr1 "missing" rfl

/-- C8: a configuration message whose (nonempty) id already exists delegates
to the existing instance's `configure` and never changes the registry's key
set (hence neither its component count); even for an empty existing id the
key set is unchanged. -/
theorem create_existing_C8 (mgr : ComponentManager) (cfg : PB_AppComponent)
    (c : Component) (hex : mapFind mgr.components cfg.component_id = some c) :
    (ComponentManager.createComponent mgr cfg).1.components.map Prod.fst =
      mgr.components.map Prod.fst ∧
    (cfg.component_id ≠ "" →
      ComponentManager.createComponent mgr cfg =
        ({ mgr with
            components := mapInsert mgr.components cfg.component_id
                            (Component.configure c cfg).1 },
          (Component.configure c cfg).2)) := by
  unfold ComponentManager.createComponent
  by_cases hid : cfg.component_id = ""
  · rw [if_pos hid]
    exact ⟨rfl, fun hne => absurd hid hne⟩
  · rw [if_neg hid, hex]
    exact ⟨mapInsert_keys _ _ _ _ hex, fun _ => rfl⟩

/-- Witness for C8: reconfiguring `"m1"` in the one-component registry keeps
the key set `["m1"]` and routes through the instance's `configure`. -/
theorem create_existing_C8_witness :
    (ComponentManager.createComponent mgr1 mcCfg25).1.components.map Prod.fst
      = mgr1.components.map Prod.fst ∧
    ComponentManager.createComponent mgr1 mcCfg25 =
      ({ mgr1 with
          components := mapInsert mgr1.components "m1"
                          (Component.configure (Component.multiChoice mcS25)
                            mcCfg25).1 },
        (Component.configure (Component.multiChoice mcS25) mcCfg25).2) := by
  have h := create_existing_C8 mgr1 mcCfg25 (Component.multiChoice mcS25) rfl
  exact ⟨h.1, h.2 (by decide)⟩

/-- C6 counterexample: a `MULTI_CHOICE` message with id `"bad"` whose payload
tag is absent (malformed type payload) still makes `createComponent` return
success, and the component is added to the registry — unconfigured.  The
claim requires a failure return and no component added. -/
theorem create_invalid_C6_counterexample :
    (ComponentManager.createComponent emptyMgr mcCfgBad).2 = true ∧
    (ComponentManager.createComponent emptyMgr mcCfgBad).1.components.map
      Prod.fst = ["bad"] ∧
    (match mapFind (ComponentManager.createComponent emptyMgr
        mcCfgBad).1.components "bad" with
      | some (.multiChoice s) => s.configured
      | _ => true) = false :=
  ⟨rfl, rfl, rfl⟩

/-- C6 amended: `createComponent` returns failure exactly when the id is
empty, or the id is new and the type tag is unrecognized, or the id exists
and the existing instance's `configure` reports failure; on failure the key
set and the active reference are unchanged.  For a new id with a recognized
type it succeeds even when the type-specific payload is absent or
malformed — the instance is stored unconfigured. -/
theorem create_invalid_C6 (mgr : ComponentManager) (cfg : PB_AppComponent) :
    ((ComponentManager.createComponent mgr cfg).2 = false ↔
      (cfg.component_id = "" ∨
        (mapFind mgr.components cfg.component_id = none ∧
          cfg.type = .UNKNOWN) ∨
        (∃ c, mapFind mgr.components cfg.component_id = some c ∧
          (Component.configure c cfg).2 = false))) ∧
    ((ComponentManager.createComponent mgr cfg).2 = false →
      (ComponentManager.createComponent mgr cfg).1.components.map Prod.fst =
        mgr.components.map Prod.fst ∧
      (ComponentManager.createComponent mgr cfg).1.active_component =
        mgr.active_component) := by
  unfold ComponentManager.createComponent
  by_cases hid : cfg.component_id = ""
  · rw [if_pos hid]
    exact ⟨⟨fun _ => Or.inl hid, fun _ => rfl⟩, fun _ => ⟨rfl, rfl⟩⟩
  · rw [if_neg hid]
    cases hfind : mapFind mgr.components cfg.component_id with
    | some c =>
      refine ⟨⟨?_, ?_⟩, ?_⟩
      · intro hf
        exact Or.inr (Or.inr ⟨c, rfl, hf⟩)
      · rintro (h | ⟨hn, -⟩ | ⟨c2, hc2, hf2⟩)
        · exact absurd h hid
        · cases hn
        · injection hc2 with hcc
          rw [hcc]
          exact hf2
      · intro _
        exact ⟨mapInsert_keys _ _ _ _ hfind, rfl⟩
    | none =>
      cases hty : ComponentManager.createComponentByType cfg.type cfg with
      | none =>
        have htu : cfg.type = .UNKNOWN := by
          cases h2 : cfg.type
          · rw [h2] at hty
            simp [ComponentManager.createComponentByType] at hty
          · rw [h2] at hty
            simp [ComponentManager.createComponentByType] at hty
          · rfl
        exact ⟨⟨fun _ => Or.inr (Or.inl ⟨rfl, htu⟩), fun _ => rfl⟩,
          fun _ => ⟨rfl, rfl⟩⟩
      | some comp =>
        refine ⟨⟨?_, ?_⟩, ?_⟩
        · intro hf
          simp at hf
        · rintro (h | ⟨-, htu⟩ | ⟨c2, hc2, -⟩)
          · exact absurd h hid
          · rw [htu] at hty
            simp [ComponentManager.createComponentByType] at hty
          · cases hc2
        · intro hf
          simp at hf

/-- C3 counterexample: the lock-discipline the claim asserts fails on three
counts — `setActiveComponent` renders inside the critical section, and
`createComponent` and `destroyComponent` mutate the map with no lock held at
all. -/
theorem registry_lock_C3_counterexample :
    traceOk (setActiveComponentTrace true) = false ∧
    traceOk (createComponentTrace false false true) = false ∧
    traceOk (destroyComponentTrace true true) = false ∧
    ¬ registryLockDisciplineClaim := by
  refine ⟨rfl, rfl, rfl, fun h => ?_⟩
  have h1 := h.1 true
  rw [show traceOk (setActiveComponentTrace true) = false from rfl] at h1
  exact Bool.false_ne_true h1

/-- C3 amended: only `setActiveComponent` (together with `update`, `add` and
`clear`) takes the registry lock, and its critical section contains the
render call; `createComponent` and `destroyComponent` perform their map and
active-reference mutations without acquiring the lock at all. -/
theorem registry_lock_C3 :
    setActiveComponentTrace true =
      [.acquire, .activeRefMutate, .renderEv, .release] ∧
    setActiveComponentTrace false = [.acquire, .release] ∧
    (∀ emptyId existing knownType, RegEvent.acquire ∉
      createComponentTrace emptyId existing knownType) ∧
    (∀ found wasActive, RegEvent.acquire ∉
      destroyComponentTrace found wasActive) ∧
    createComponentTrace false false true = [.mapMutate] ∧
    createComponentTrace false true true = [.compConfigure] ∧
    createComponentTrace false true false = [.compConfigure] ∧
    destroyComponentTrace true true = [.activeRefMutate, .mapMutate] ∧
    destroyComponentTrace true false = [.mapMutate] := by
  refine ⟨rfl, rfl, ?_, ?_, rfl, rfl, rfl, rfl, rfl⟩
  · intro a b c2
    cases a <;> cases b <;> cases c2 <;> simp [createComponentTrace]
  · intro a b
    cases a <;> cases b <;> simp [destroyComponentTrace]

end SmartKnob
